import Mathlib

/-!
Verification of the step-mirroring decorator of
src/backend/app/utils/server/sync_step.py and the logging shim of
src/utils/traceroot_wrapper.py, as a shallow embedding in Lean.

Events produced by the wrapped asynchronous generator are modelled as
Python-like values (PyVal).  External collaborators that live outside the
two source files (the json string parser of the standard library, the
task-lock lookup get_task_lock_if_exists, the httpx transport, the clock
time.time_ns, and the first positional call argument) are inputs of the
model, gathered in the Cfg structure.  The wrapper body itself, lines
29-81 of sync_step.py, is translated statement by statement; a run over a
finite list of upstream events returns the yielded events, the scheduled
mirror dispatches, the log entries, and the uncaught exception (if any)
that terminated the generator early.
-/

set_option maxHeartbeats 1000000

namespace StepMirror

/-- Python-like runtime values: the events an upstream stream can yield and
the values json.loads can return (strings, numbers, booleans, None, lists,
dicts with string keys). -/
inductive PyVal where
  | vstr (s : String)
  | vint (n : Int)
  | vbool (b : Bool)
  | vnone
  | vlist (xs : List PyVal)
  | vdict (fields : List (String × PyVal))

/-- Python exceptions that can arise in the wrapper body.  Only
JSONDecodeError is caught by the try/except of lines 42-47; every other
exception propagates out of the generator. -/
inductive PyError where
  | jsonDecodeError
  | typeError (msg : String)
  | attributeError (msg : String)
  | keyError (key : String)
deriving DecidableEq

/-- The log calls of sync_step.py, one constructor per logger call site,
carrying the data interpolated into the message. -/
inductive LogEntry where
  | errorJsonParse (value : PyVal)
  | errorMissingKeys (keys : List String)
  | warnTaskLockNotFound (project_id : String)
  | errorSendFailed (url : String) (errName errMsg : String)

/-- Duck-typed model of the first positional argument (line 55): a field
set to none models an absent attribute, so that hasattr checks and
attribute lookups can be expressed. -/
structure ChatLike where
  task_id : Option String
  project_id : Option String

/-- Model of the record returned by get_task_lock_if_exists; none for
current_task_id models the attribute being absent (the code also treats a
present but falsy value as absent, line 61-62). -/
structure TaskLock where
  current_task_id : Option String

/-- A transport-level exception raised by the httpx client while posting,
carrying the Python type name and the message the code logs (line 90). -/
structure TransportError where
  name : String
  msg : String

/-- The JSON body posted to the sink (lines 71-76).  The timestamp is
time.time_ns() / 1_000_000_000, modelled exactly over the rationals. -/
structure Payload where
  task_id : String
  step : PyVal
  data : PyVal
  timestamp : ℚ

/-- Call-time collaborators of one invocation of the wrapped function:
the standard-library json string parser, the task-lock lookup, the first
positional argument (if any), the clock, and the transport used by the
fire-and-forget send_to_api tasks.  The wrapper schedules dispatches but
never awaits them, so the transport cannot influence the stream. -/
structure Cfg where
  parse : String → Option PyVal
  getTaskLock : String → Option TaskLock
  chatArg : Option ChatLike
  timeNs : Nat
  post : String → Payload → Except TransportError Unit

/-- Outcome of processing one event with a sink configured: either the
event is yielded (with the dispatches scheduled and the log entries
emitted while processing it), or an uncaught exception is raised after
emitting some log entries, terminating the generator before the yield. -/
inductive StepResult where
  | yielded (dispatched : List (String × Payload)) (logs : List LogEntry)
  | raised (logs : List LogEntry) (err : PyError)

/-- Observable outcome of one invocation of the wrapped function over a
finite upstream event list. -/
structure WrapResult where
  yielded : List PyVal
  dispatches : List (String × Payload)
  logs : List LogEntry
  errored : Option PyError

/-- Python truthiness of an optional string (line 33 `if not server_url`
and line 31 conditional): None and the empty string are falsy. -/
def pyTruthyOptStr (o : Option String) : Bool :=
  match o with
  | some s => if s = "" then false else true
  | none => false

/-- Extract the string of an optional value, used only under a truthiness
guard (so only in the some case). -/
def pyStrOrEmpty (o : Option String) : String :=
  match o with
  | some s => s
  | none => ""

/-- Python str.startswith, over the character sequence. -/
def pyStartsWith (s pre : String) : Bool :=
  decide (s.data.take pre.data.length = pre.data)

/-- Python slice s[n:], over the character sequence. -/
def pyDropChars (s : String) (n : Nat) : String := ⟨s.data.drop n⟩

/-- Python str.strip(): remove leading and trailing whitespace. -/
def pyStrip (s : String) : String :=
  ⟨(((s.data.dropWhile Char.isWhitespace).reverse).dropWhile
      Char.isWhitespace).reverse⟩

/-- Lines 37-40: if the event is a string starting with the marker
"data: " (6 characters), drop the marker and strip surrounding
whitespace; otherwise the event itself is the candidate passed to
json.loads. -/
def normalize (v : PyVal) : PyVal :=
  match v with
  | .vstr s =>
    if pyStartsWith s "data: " then .vstr (pyStrip (pyDropChars s 6))
    else .vstr s
  | other => other

/-- Model of json.loads (line 43): parses string input with the library parser
(failure raises JSONDecodeError); any non-string input raises TypeError,
which the except clause of line 44 does not catch. -/
def loads (parse : String → Option PyVal) (v : PyVal) : Except PyError PyVal :=
  match v with
  | .vstr s =>
    match parse s with
    | some r => .ok r
    | none => .error .jsonDecodeError
  | _ => .error (.typeError "the JSON object must be str, bytes or bytearray")

/-- Prefix test over character sequences. -/
def prefixMatches : List Char → List Char → Bool
  | [], _ => true
  | _ :: _, [] => false
  | a :: as, b :: bs => a == b && prefixMatches as bs

/-- Occurrence of a character sequence inside another, at any offset. -/
def hasSublist (needle : List Char) : List Char → Bool
  | [] => prefixMatches needle []
  | c :: t => prefixMatches needle (c :: t) || hasSublist needle t

/-- Python substring test, used by the `in` operator on strings: an empty
needle is contained in every string. -/
def strContainsSub (s needle : String) : Bool :=
  hasSublist needle.data s.data

/-- Python membership `needle in x` (line 49): key test on dicts, element
test on lists, substring test on strings; TypeError on non-iterables. -/
def pyContains (x : PyVal) (needle : String) : Except PyError Bool :=
  match x with
  | .vdict fs => .ok (fs.any (fun kv => kv.1 == needle))
  | .vlist xs =>
    .ok (xs.any (fun v => match v with | .vstr s => s == needle | _ => false))
  | .vstr s => .ok (strContainsSub s needle)
  | .vint _ => .error (.typeError "argument of type int is not iterable")
  | .vbool _ => .error (.typeError "argument of type bool is not iterable")
  | .vnone => .error (.typeError "argument of type NoneType is not iterable")

/-- Python `list(x.keys())` (line 50): defined on dicts; any other value
raises AttributeError while the log message is being formatted. -/
def pyKeysList (x : PyVal) : Except PyError (List String) :=
  match x with
  | .vdict fs => .ok (fs.map (fun kv => kv.1))
  | _ => .error (.attributeError "object has no attribute keys")

/-- Python subscription `x[key]` with a string key (lines 73-74): key
lookup on dicts; TypeError on lists, strings and other values. -/
def pyGetItem (x : PyVal) (key : String) : Except PyError PyVal :=
  match x with
  | .vdict fs =>
    match fs.find? (fun kv => kv.1 == key) with
    | some kv => .ok kv.2
    | none => .error (.keyError key)
  | .vlist _ => .error (.typeError "list indices must be integers or slices, not str")
  | .vstr _ => .error (.typeError "string indices must be integers")
  | _ => .error (.typeError "object is not subscriptable")

/-- First-match dict lookup returning an option, used in theorem
statements to name the step and data fields of a parsed record. -/
def dictGet (fs : List (String × PyVal)) (k : String) : Option PyVal :=
  (fs.find? (fun kv => kv.1 == k)).map (fun kv => kv.2)

/-- Line 49-52 condition, with Python evaluation order: evaluate
`"step" in json_data` first (may raise), short-circuit `or`, then
`"data" in json_data`; on a missing key the log message evaluates
`list(json_data.keys())`, which itself may raise.  Returns .ok none when
both keys are present, .ok (some keys) when the missing-key log branch is
taken, .error when an exception propagates. -/
def validateKeys (json_data : PyVal) : Except PyError (Option (List String)) :=
  match pyContains json_data "step" with
  | .error e => .error e
  | .ok hasStep =>
    if hasStep then
      match pyContains json_data "data" with
      | .error e => .error e
      | .ok hasData =>
        if hasData then .ok none
        else
          match pyKeysList json_data with
          | .error e => .error e
          | .ok ks => .ok (some ks)
    else
      match pyKeysList json_data with
      | .error e => .error e
      | .ok ks => .ok (some ks)

/-- Lines 54-65: chat is args[0] when args is non-empty and args[0] has a
task_id attribute, else None; when chat is present, look up the task lock
by chat.project_id (an AttributeError if that attribute is missing, since
only task_id was checked); with a lock, use its current_task_id when that
attribute exists and is truthy, else chat.task_id; with no lock, log a
warning and use chat.task_id.  Returns the resolved task_id variable and
the log entries emitted, or the exception raised. -/
def resolveTaskId (cfg : Cfg) : Except PyError (Option String × List LogEntry) :=
  match cfg.chatArg with
  | none => .ok (none, [])
  | some c =>
    match c.task_id with
    | none => .ok (none, [])
    | some tid =>
      match c.project_id with
      | none => .error (.attributeError "Chat object has no attribute project_id")
      | some pid =>
        match cfg.getTaskLock pid with
        | some lock =>
          match lock.current_task_id with
          | some cur => if cur = "" then .ok (some tid, []) else .ok (some cur, [])
          | none => .ok (some tid, [])
        | none => .ok (some tid, [.warnTaskLockNotFound pid])

/-- Lines 67-79 given the resolution outcome: if task_id is truthy, build
the payload (evaluating json_data subscriptions, which may raise) and
schedule exactly one dispatch to sync_url via asyncio.create_task; then
yield.  A falsy task_id skips the dispatch and yields. -/
def dispatchStage (cfg : Cfg) (sync_url : String) (json_data : PyVal)
    (rres : Except PyError (Option String × List LogEntry)) : StepResult :=
  match rres with
  | .error e => .raised [] e
  | .ok (task_id, rlogs) =>
    match task_id with
    | none => .yielded [] rlogs
    | some t =>
      if t = "" then .yielded [] rlogs
      else
        match pyGetItem json_data "step" with
        | .error e => .raised rlogs e
        | .ok st =>
          match pyGetItem json_data "data" with
          | .error e => .raised rlogs e
          | .ok dt =>
            .yielded
              [(sync_url, ⟨t, st, dt, (cfg.timeNs : ℚ) / 1000000000⟩)] rlogs

/-- Lines 37-79: processing of a single event when the sink is configured.
Only JSONDecodeError from json.loads is caught (lines 42-47); a TypeError
from loads, an exception from the membership test or the keys() call, an
AttributeError from correlation, or a TypeError from payload subscription
all propagate and terminate the generator. -/
def processEvent (cfg : Cfg) (sync_url : String) (value : PyVal) : StepResult :=
  match loads cfg.parse (normalize value) with
  | .error .jsonDecodeError => .yielded [] [.errorJsonParse (normalize value)]
  | .error e => .raised [] e
  | .ok json_data =>
    match validateKeys json_data with
    | .error e => .raised [] e
    | .ok (some ks) => .yielded [] [.errorMissingKeys ks]
    | .ok none => dispatchStage cfg sync_url json_data (resolveTaskId cfg)

/-- The wrapper body (lines 29-81) run over a finite upstream event list.
server_url is the value of env("SERVER_URL") read at the start of the
invocation (line 30); sync_url is server_url + "/chat/steps" when
server_url is truthy (line 31).  A falsy server_url yields each event
unchanged with no further processing (lines 33-35). -/
def wrapperRun (server_url : Option String) (cfg : Cfg) : List PyVal → WrapResult
  | [] => ⟨[], [], [], none⟩
  | v :: rest =>
    if pyTruthyOptStr server_url then
      match processEvent cfg (pyStrOrEmpty server_url ++ "/chat/steps") v with
      | .yielded ds ls =>
        ⟨v :: (wrapperRun server_url cfg rest).yielded,
         ds ++ (wrapperRun server_url cfg rest).dispatches,
         ls ++ (wrapperRun server_url cfg rest).logs,
         (wrapperRun server_url cfg rest).errored⟩
      | .raised ls e => ⟨[], [], ls, some e⟩
    else
      ⟨v :: (wrapperRun server_url cfg rest).yielded,
       (wrapperRun server_url cfg rest).dispatches,
       (wrapperRun server_url cfg rest).logs,
       (wrapperRun server_url cfg rest).errored⟩

/-- Lines 84-90: send_to_api posts the payload and catches every
exception raised by the post, logging the error type name and message;
it never lets an exception escape, so it always returns its log list. -/
def send_to_api (post : String → Payload → Except TransportError Unit)
    (url : String) (data : Payload) : List LogEntry :=
  match post url data with
  | .ok _ => []
  | .error e => [.errorSendFailed url e.name e.msg]

/-! Concrete fixtures used by witness and counterexample theorems. -/

/-- A transport that always succeeds. -/
def postOk : String → Payload → Except TransportError Unit := fun _ _ => .ok ()

/-- A transport that always fails with a connection error. -/
def postFail : String → Payload → Except TransportError Unit :=
  fun _ _ => .error ⟨"ConnectError", "connection refused"⟩

/-- Configuration whose parser rejects every string, with no first
positional argument and an empty task-lock table. -/
def cfgReject : Cfg := ⟨fun _ => none, fun _ => none, none, 0, postOk⟩

/-- The JSON text of the spec example (braces written as escapes). -/
def jsonPlan : String := "\x7b\"step\": \"plan\", \"data\": \x7b\"x\": 1\x7d\x7d"

/-- The parsed value of the spec example. -/
def valPlan : PyVal :=
  .vdict [("step", .vstr "plan"), ("data", .vdict [("x", .vint 1)])]

/-- The spec example event: the JSON text behind a "data: " marker. -/
def evPlan : PyVal := .vstr ("data: " ++ jsonPlan)

/-- A parser recognizing exactly the spec example text. -/
def parsePlan : String → Option PyVal :=
  fun s => if s = jsonPlan then some valPlan else none

/-- Configuration for the spec example: correlation source with its own
task id "T0" and project "P1", and a task lock carrying current task
id "T1". -/
def cfgPlan : Cfg :=
  ⟨parsePlan, fun _ => some ⟨some "T1"⟩, some ⟨some "T0", some "P1"⟩,
   1700000000000000000, postOk⟩

/-- Like cfgPlan but with no task-lock record for any project. -/
def cfgNoLock : Cfg :=
  ⟨parsePlan, fun _ => none, some ⟨some "T1", some "P1"⟩, 0, postOk⟩

/-- A parser mapping the one-character text "J" to a well-formed step
record. -/
def parseMini : String → Option PyVal :=
  fun s => if s = "J" then some (.vdict [("step", .vint 1), ("data", .vint 2)]) else none

/-- Configuration whose first positional argument exposes task_id but not
project_id. -/
def cfgNoProj : Cfg := ⟨parseMini, fun _ => none, some ⟨some "T1", none⟩, 0, postOk⟩

/-- Configuration whose first positional argument exposes project_id but
not task_id. -/
def cfgProjOnly : Cfg := ⟨parseMini, fun _ => none, some ⟨none, some "P1"⟩, 0, postOk⟩

/-- Configuration with a well-formed parser and no first positional
argument. -/
def cfgMiniNoChat : Cfg := ⟨parseMini, fun _ => none, none, 0, postOk⟩

/-- A parser mapping the text "5" to the JSON scalar 5. -/
def parseScalar : String → Option PyVal :=
  fun s => if s = "5" then some (.vint 5) else none

/-- Configuration whose parser produces a non-object JSON value. -/
def cfgScalar : Cfg := ⟨parseScalar, fun _ => none, none, 0, postOk⟩

/-- A concrete mirror payload. -/
def payload0 : Payload := ⟨"T1", .vstr "plan", .vnone, 0⟩

end StepMirror

namespace Traceroot

/-- Lines 69-73 of src/utils/traceroot_wrapper.py, the branch taken when
tracing is disabled: trace accepts any decorator arguments and returns a
decorator that returns its function unchanged. -/
def trace {α : Type} (args : List StepMirror.PyVal)
    (kwargs : List (String × StepMirror.PyVal)) (func : α) : α :=
  func

end Traceroot

namespace StepMirror

/-! Helper lemmas about the embedded operations. -/

theorem pyTruthy_some {u : String} (h : u ≠ "") :
    pyTruthyOptStr (some u) = true := by
  simp [pyTruthyOptStr, h]

theorem wrapperRun_nil (url : Option String) (cfg : Cfg) :
    wrapperRun url cfg [] = ⟨[], [], [], none⟩ := rfl

theorem wrapperRun_cons_passthrough (url : Option String) (cfg : Cfg)
    (v : PyVal) (rest : List PyVal) (htr : pyTruthyOptStr url = false) :
    wrapperRun url cfg (v :: rest) =
      ⟨v :: (wrapperRun url cfg rest).yielded,
       (wrapperRun url cfg rest).dispatches,
       (wrapperRun url cfg rest).logs,
       (wrapperRun url cfg rest).errored⟩ := by
  simp [wrapperRun, htr]

theorem wrapperRun_cons_yield {url : Option String} {cfg : Cfg} {v : PyVal}
    {ds : List (String × Payload)} {ls : List LogEntry} (rest : List PyVal)
    (htr : pyTruthyOptStr url = true)
    (hpe : processEvent cfg (pyStrOrEmpty url ++ "/chat/steps") v = .yielded ds ls) :
    wrapperRun url cfg (v :: rest) =
      ⟨v :: (wrapperRun url cfg rest).yielded,
       ds ++ (wrapperRun url cfg rest).dispatches,
       ls ++ (wrapperRun url cfg rest).logs,
       (wrapperRun url cfg rest).errored⟩ := by
  simp [wrapperRun, htr, hpe]

theorem wrapperRun_cons_raised {url : Option String} {cfg : Cfg} {v : PyVal}
    {ls : List LogEntry} {e : PyError} (rest : List PyVal)
    (htr : pyTruthyOptStr url = true)
    (hpe : processEvent cfg (pyStrOrEmpty url ++ "/chat/steps") v = .raised ls e) :
    wrapperRun url cfg (v :: rest) = ⟨[], [], ls, some e⟩ := by
  simp [wrapperRun, htr, hpe]

theorem processEvent_parse_fail {cfg : Cfg} {v : PyVal} {s2 : String}
    (su : String) (hn : normalize v = .vstr s2) (hp : cfg.parse s2 = none) :
    processEvent cfg su v = .yielded [] [.errorJsonParse (.vstr s2)] := by
  simp [processEvent, hn, loads, hp]

theorem any_key_of_dictGet {fs : List (String × PyVal)} {k : String} {x : PyVal}
    (h : dictGet fs k = some x) : fs.any (fun kv => kv.1 == k) = true := by
  unfold dictGet at h
  cases hf : fs.find? (fun kv => kv.1 == k) with
  | none => rw [hf] at h; simp at h
  | some kv =>
    have hmem := List.mem_of_find?_eq_some hf
    have hpred := List.find?_some hf
    simp only [List.any_eq_true]
    exact ⟨kv, hmem, hpred⟩

theorem getItem_of_dictGet {fs : List (String × PyVal)} {k : String} {x : PyVal}
    (h : dictGet fs k = some x) : pyGetItem (.vdict fs) k = .ok x := by
  unfold dictGet at h
  cases hf : fs.find? (fun kv => kv.1 == k) with
  | none => rw [hf] at h; simp at h
  | some kv =>
    rw [hf] at h
    simp only [Option.map_some', Option.some.injEq] at h
    simp [pyGetItem, hf, h]

theorem validateKeys_dict_ok {fs : List (String × PyVal)} {st dt : PyVal}
    (hst : dictGet fs "step" = some st) (hdt : dictGet fs "data" = some dt) :
    validateKeys (.vdict fs) = .ok none := by
  have h1 := any_key_of_dictGet hst
  have h2 := any_key_of_dictGet hdt
  simp [validateKeys, pyContains, h1, h2]

theorem validateKeys_dict_missing {fs : List (String × PyVal)}
    (h : fs.any (fun kv => kv.1 == "step") = false ∨
         fs.any (fun kv => kv.1 == "data") = false) :
    validateKeys (.vdict fs) = .ok (some (fs.map (fun kv => kv.1))) := by
  rcases h with h | h
  · simp [validateKeys, pyContains, h, pyKeysList]
  · cases h1 : fs.any (fun kv => kv.1 == "step") with
    | false => simp [validateKeys, pyContains, h1, pyKeysList]
    | true => simp [validateKeys, pyContains, h1, h, pyKeysList]

theorem processEvent_validated {cfg : Cfg} {v : PyVal} {s2 : String}
    {fs : List (String × PyVal)} (su : String) (hn : normalize v = .vstr s2)
    (hp : cfg.parse s2 = some (.vdict fs))
    (hvk : validateKeys (.vdict fs) = .ok none) :
    processEvent cfg su v = dispatchStage cfg su (.vdict fs) (resolveTaskId cfg) := by
  simp [processEvent, hn, loads, hp, hvk]

theorem processEvent_missing_keys {cfg : Cfg} {v : PyVal} {s2 : String}
    {fs : List (String × PyVal)} (su : String) (hn : normalize v = .vstr s2)
    (hp : cfg.parse s2 = some (.vdict fs))
    (hvk : validateKeys (.vdict fs) = .ok (some (fs.map (fun kv => kv.1)))) :
    processEvent cfg su v = .yielded [] [.errorMissingKeys (fs.map (fun kv => kv.1))] := by
  simp [processEvent, hn, loads, hp, hvk]

theorem dispatchStage_none {cfg : Cfg} {su : String} {jd : PyVal}
    {rlogs : List LogEntry} :
    dispatchStage cfg su jd (.ok (none, rlogs)) = .yielded [] rlogs := rfl

theorem dispatchStage_empty {cfg : Cfg} {su : String} {jd : PyVal}
    {rlogs : List LogEntry} :
    dispatchStage cfg su jd (.ok (some "", rlogs)) = .yielded [] rlogs := by
  simp [dispatchStage]

theorem dispatchStage_dispatch {cfg : Cfg} {su : String}
    {fs : List (String × PyVal)} {t : String} {rlogs : List LogEntry}
    {st dt : PyVal} (ht : t ≠ "")
    (hst : dictGet fs "step" = some st) (hdt : dictGet fs "data" = some dt) :
    dispatchStage cfg su (.vdict fs) (.ok (some t, rlogs)) =
      .yielded [(su, ⟨t, st, dt, (cfg.timeNs : ℚ) / 1000000000⟩)] rlogs := by
  have h1 := getItem_of_dictGet hst
  have h2 := getItem_of_dictGet hdt
  simp [dispatchStage, ht, h1, h2]

theorem resolveTaskId_lock_current {cfg : Cfg} {tid pid : String}
    {lock : TaskLock} {cur : String}
    (hc : cfg.chatArg = some ⟨some tid, some pid⟩)
    (hl : cfg.getTaskLock pid = some lock)
    (hcur : lock.current_task_id = some cur) (hne : cur ≠ "") :
    resolveTaskId cfg = .ok (some cur, []) := by
  simp [resolveTaskId, hc, hl, hcur, hne]

theorem resolveTaskId_lock_fallback {cfg : Cfg} {tid pid : String}
    {lock : TaskLock}
    (hc : cfg.chatArg = some ⟨some tid, some pid⟩)
    (hl : cfg.getTaskLock pid = some lock)
    (hcur : lock.current_task_id = none ∨ lock.current_task_id = some "") :
    resolveTaskId cfg = .ok (some tid, []) := by
  rcases hcur with h | h <;> simp [resolveTaskId, hc, hl, h]

theorem resolveTaskId_no_lock {cfg : Cfg} {tid pid : String}
    (hc : cfg.chatArg = some ⟨some tid, some pid⟩)
    (hl : cfg.getTaskLock pid = none) :
    resolveTaskId cfg = .ok (some tid, [.warnTaskLockNotFound pid]) := by
  simp [resolveTaskId, hc, hl]

end StepMirror

namespace StepMirror

/-! Claim theorems. -/

/-- Claim C6: when no sink URL is configured (the environment value is
unset or empty, hence falsy), the wrapper yields every event unchanged and
performs no further processing: no parsing, no correlation lookup, no log
entries, no mirror dispatch, and the output sequence is identical to the
unwrapped stream. -/
theorem C6_no_sink_passthrough (url : Option String) (cfg : Cfg)
    (events : List PyVal) (h : pyTruthyOptStr url = false) :
    wrapperRun url cfg events = ⟨events, [], [], none⟩ := by
  induction events with
  | nil => rfl
  | cons v rest ih =>
    rw [wrapperRun_cons_passthrough url cfg v rest h, ih]

/-- Claim C6 (witness): a concrete two-event run with SERVER_URL unset. -/
theorem C6_witness :
    wrapperRun none cfgReject [.vint 1, .vstr "a"] =
      ⟨[.vint 1, .vstr "a"], [], [], none⟩ :=
  C6_no_sink_passthrough none cfgReject [.vint 1, .vstr "a"] rfl

/-- Claim C1 (counterexample): with a sink configured, a non-string event
(the integer 7) makes json.loads raise a TypeError that the except clause
(which catches only JSONDecodeError) does not handle, so the wrapped
stream terminates without yielding the event: the output sequence is not
the upstream sequence. -/
theorem C1_counterexample :
    ¬ ((wrapperRun (some "http://sink.example") cfgReject [.vint 7]).yielded
        = [.vint 7]) := by
  intro h
  have hy : (wrapperRun (some "http://sink.example") cfgReject [.vint 7]).yielded
      = [] := rfl
  rw [hy] at h
  exact List.noConfusion h

/-- Claim C1 (amended): the wrapped stream always yields a prefix of the
upstream events, in order, unaltered and without duplication, and yields
exactly the full upstream sequence whenever no per-event processing raises
an uncaught exception; with a sink configured, an event that is not a
string, an event whose payload parses to a non-object JSON value, or a
correlation source exposing task_id but not project_id can raise an
uncaught exception that cuts the stream short. -/
theorem C1_stream_preserved (url : Option String) (cfg : Cfg)
    (events : List PyVal) :
    ((wrapperRun url cfg events).errored = none →
      (wrapperRun url cfg events).yielded = events) ∧
    ∃ t, events = (wrapperRun url cfg events).yielded ++ t := by
  induction events with
  | nil => exact ⟨fun _ => rfl, ⟨[], rfl⟩⟩
  | cons v rest ih =>
    obtain ⟨ih1, t, ih2⟩ := ih
    cases htr : pyTruthyOptStr url with
    | false =>
      rw [wrapperRun_cons_passthrough url cfg v rest htr]
      constructor
      · intro h
        have h1 := ih1 h
        simp [h1]
      · exact ⟨t, by simp [List.cons_append, ← ih2]⟩
    | true =>
      cases hpe : processEvent cfg (pyStrOrEmpty url ++ "/chat/steps") v with
      | yielded ds ls =>
        rw [wrapperRun_cons_yield rest htr hpe]
        constructor
        · intro h
          have h1 := ih1 h
          simp [h1]
        · exact ⟨t, by simp [List.cons_append, ← ih2]⟩
      | raised ls e =>
        rw [wrapperRun_cons_raised rest htr hpe]
        constructor
        · intro h
          exact Option.noConfusion h
        · exact ⟨v :: rest, rfl⟩

/-- Claim C1 (witness): the amended theorem applied with no sink
configured, where the run reports no uncaught exception, so the full
sequence is yielded. -/
theorem C1_witness :
    (wrapperRun none cfgReject [.vint 7]).yielded = [.vint 7] :=
  (C1_stream_preserved none cfgReject [.vint 7]).1 rfl

/-- Claim C8 (counterexample): the sink URL is read from the environment
inside the wrapper at invocation time (line 30), not at decoration time,
so calls of the one wrapped function under different call-time
environments behave differently: with SERVER_URL unset a run over one
unparseable string event emits no log, with it set the same event
produces a parse-failure log entry. -/
theorem C8_counterexample :
    wrapperRun none cfgReject [.vstr "x"] ≠
      wrapperRun (some "http://sink.example") cfgReject [.vstr "x"] := by
  intro h
  have h1 : (wrapperRun none cfgReject [.vstr "x"]).logs = [] := rfl
  have h2 : (wrapperRun (some "http://sink.example") cfgReject [.vstr "x"]).logs
      = [.errorJsonParse (.vstr "x")] := rfl
  rw [h] at h1
  rw [h2] at h1
  exact List.noConfusion h1

/-- Claim C8 (amended): the sink base URL is resolved from configuration
once per invocation of the wrapped function, at the start of its
iteration, not at wrap time: every event of one invocation is processed
against that same resolved configuration, so a run over a concatenation
of event lists whose first part raises no uncaught exception is the join
of the runs of the parts under the unchanged configuration; a
configuration change after decoration but before a call does alter the
behaviour of the already-wrapped function (see the counterexample). -/
theorem C8_url_per_invocation (url : Option String) (cfg : Cfg)
    (l1 l2 : List PyVal) (h : (wrapperRun url cfg l1).errored = none) :
    wrapperRun url cfg (l1 ++ l2) =
      ⟨(wrapperRun url cfg l1).yielded ++ (wrapperRun url cfg l2).yielded,
       (wrapperRun url cfg l1).dispatches ++ (wrapperRun url cfg l2).dispatches,
       (wrapperRun url cfg l1).logs ++ (wrapperRun url cfg l2).logs,
       (wrapperRun url cfg l2).errored⟩ := by
  induction l1 with
  | nil => simp [wrapperRun_nil]
  | cons v rest ih =>
    cases htr : pyTruthyOptStr url with
    | false =>
      rw [wrapperRun_cons_passthrough url cfg v rest htr] at h
      simp only at h
      have := ih h
      rw [List.cons_append,
          wrapperRun_cons_passthrough url cfg v (rest ++ l2) htr,
          wrapperRun_cons_passthrough url cfg v rest htr, this]
      simp
    | true =>
      cases hpe : processEvent cfg (pyStrOrEmpty url ++ "/chat/steps") v with
      | yielded ds ls =>
        rw [wrapperRun_cons_yield rest htr hpe] at h
        simp only at h
        have := ih h
        rw [List.cons_append,
            wrapperRun_cons_yield (rest ++ l2) htr hpe,
            wrapperRun_cons_yield rest htr hpe, this]
        simp
      | raised ls e =>
        rw [wrapperRun_cons_raised rest htr hpe] at h
        simp only at h
        exact Option.noConfusion h

/-- Claim C8 (witness): the amended theorem applied to two concrete event
lists (each a recovered parse failure) under a configured sink. -/
theorem C8_witness :
    wrapperRun (some "http://sink.example") cfgReject [.vstr "a", .vstr "b"] =
      ⟨[.vstr "a", .vstr "b"], [],
       [.errorJsonParse (.vstr "a"), .errorJsonParse (.vstr "b")], none⟩ :=
  C8_url_per_invocation (some "http://sink.example") cfgReject
    [.vstr "a"] [.vstr "b"] rfl

end StepMirror

/-- Claim C9: when tracing is disabled, the trace decorator is a no-op:
for every choice of decorator arguments and keyword arguments and every
function f, trace applied to those arguments and then to f returns f
itself unchanged, so decorated and undecorated calls are identical. -/
theorem C9_trace_noop {α : Type} (args : List StepMirror.PyVal)
    (kwargs : List (String × StepMirror.PyVal)) (f : α) :
    Traceroot.trace args kwargs f = f := rfl

namespace StepMirror

/-- Assembly lemma: a mirrorable event (string candidate parsing to an
object with both fields) with a truthy resolved task id contributes
exactly one dispatch, the resolution logs, and its own yield. -/
theorem run_cons_mirror {u : String} {cfg : Cfg} {v : PyVal} {s2 : String}
    {fs : List (String × PyVal)} {st dt : PyVal} {t : String}
    {rlogs : List LogEntry} (rest : List PyVal)
    (hu : u ≠ "") (hn : normalize v = .vstr s2)
    (hp : cfg.parse s2 = some (.vdict fs))
    (hst : dictGet fs "step" = some st) (hdt : dictGet fs "data" = some dt)
    (hres : resolveTaskId cfg = .ok (some t, rlogs)) (ht : t ≠ "") :
    wrapperRun (some u) cfg (v :: rest) =
      ⟨v :: (wrapperRun (some u) cfg rest).yielded,
       (u ++ "/chat/steps", ⟨t, st, dt, (cfg.timeNs : ℚ) / 1000000000⟩)
         :: (wrapperRun (some u) cfg rest).dispatches,
       rlogs ++ (wrapperRun (some u) cfg rest).logs,
       (wrapperRun (some u) cfg rest).errored⟩ := by
  have htr := pyTruthy_some hu
  have hvk := validateKeys_dict_ok hst hdt
  have hpe := processEvent_validated
    (pyStrOrEmpty (some u) ++ "/chat/steps") hn hp hvk
  rw [hres, dispatchStage_dispatch ht hst hdt] at hpe
  rw [wrapperRun_cons_yield rest htr hpe]
  simp [pyStrOrEmpty]

/-- Assembly lemma: a mirrorable event whose resolved task id is falsy
(absent or empty) contributes no dispatch, only the resolution logs, and
its own yield. -/
theorem run_cons_nodispatch {u : String} {cfg : Cfg} {v : PyVal} {s2 : String}
    {fs : List (String × PyVal)} {st dt : PyVal} {r : Option String}
    {rlogs : List LogEntry} (rest : List PyVal)
    (hu : u ≠ "") (hn : normalize v = .vstr s2)
    (hp : cfg.parse s2 = some (.vdict fs))
    (hst : dictGet fs "step" = some st) (hdt : dictGet fs "data" = some dt)
    (hres : resolveTaskId cfg = .ok (r, rlogs))
    (hfals : r = none ∨ r = some "") :
    wrapperRun (some u) cfg (v :: rest) =
      ⟨v :: (wrapperRun (some u) cfg rest).yielded,
       (wrapperRun (some u) cfg rest).dispatches,
       rlogs ++ (wrapperRun (some u) cfg rest).logs,
       (wrapperRun (some u) cfg rest).errored⟩ := by
  have htr := pyTruthy_some hu
  have hvk := validateKeys_dict_ok hst hdt
  have hpe := processEvent_validated
    (pyStrOrEmpty (some u) ++ "/chat/steps") hn hp hvk
  rw [hres] at hpe
  rcases hfals with hr | hr <;> rw [hr] at hpe
  · rw [dispatchStage_none] at hpe
    rw [wrapperRun_cons_yield rest htr hpe]
    simp
  · rw [dispatchStage_empty] at hpe
    rw [wrapperRun_cons_yield rest htr hpe]
    simp

/-- Assembly lemma: a mirrorable event whose correlation raises an
exception terminates the run before yielding that event. -/
theorem run_cons_resolve_raised {u : String} {cfg : Cfg} {v : PyVal}
    {s2 : String} {fs : List (String × PyVal)} {st dt : PyVal} {e : PyError}
    (rest : List PyVal)
    (hu : u ≠ "") (hn : normalize v = .vstr s2)
    (hp : cfg.parse s2 = some (.vdict fs))
    (hst : dictGet fs "step" = some st) (hdt : dictGet fs "data" = some dt)
    (hres : resolveTaskId cfg = .error e) :
    wrapperRun (some u) cfg (v :: rest) = ⟨[], [], [], some e⟩ := by
  have htr := pyTruthy_some hu
  have hvk := validateKeys_dict_ok hst hdt
  have hpe := processEvent_validated
    (pyStrOrEmpty (some u) ++ "/chat/steps") hn hp hvk
  rw [hres] at hpe
  rw [wrapperRun_cons_raised rest htr hpe]

/-- Claim C2 (counterexample): with a sink configured, an event whose
text parses to the JSON scalar 5 (valid JSON, but not an object) makes
the membership test of line 49 raise a TypeError that nothing catches:
the event is not yielded and the stream aborts, contrary to the claim
that every such event is logged, yielded and skipped without any
exception being raised. -/
theorem C2_counterexample :
    ¬ ((wrapperRun (some "http://sink.example") cfgScalar [.vstr "5"]).yielded
          = [.vstr "5"] ∧
       (wrapperRun (some "http://sink.example") cfgScalar [.vstr "5"]).errored
          = none) := by
  intro h
  have h2 : (wrapperRun (some "http://sink.example") cfgScalar
      [.vstr "5"]).errored
      = some (.typeError "argument of type int is not iterable") := rfl
  rw [h2] at h
  exact Option.noConfusion h.2

/-- Claim C2 (amended): with a sink configured, for every string event:
if its candidate text fails to parse as JSON, the wrapper logs the
failure with the offending text, yields the event unchanged, issues no
dispatch for it, and continues with the rest of the stream without
raising; and if the candidate parses to a JSON object lacking a "step"
field or a "data" field, the omission is logged with the object keys and
the event is likewise yielded unchanged with no dispatch.  For
non-textual events, and for textual events parsing to non-object JSON
values, an uncaught TypeError or AttributeError can instead abort the
stream (see the counterexample). -/
theorem C2_malformed_recovery (url : Option String) (cfg : Cfg) (v : PyVal)
    (s2 : String) (rest : List PyVal) (htr : pyTruthyOptStr url = true)
    (hn : normalize v = .vstr s2) :
    (cfg.parse s2 = none →
      wrapperRun url cfg (v :: rest) =
        ⟨v :: (wrapperRun url cfg rest).yielded,
         (wrapperRun url cfg rest).dispatches,
         .errorJsonParse (.vstr s2) :: (wrapperRun url cfg rest).logs,
         (wrapperRun url cfg rest).errored⟩) ∧
    (∀ fs : List (String × PyVal),
      cfg.parse s2 = some (.vdict fs) →
      (fs.any (fun kv => kv.1 == "step") = false ∨
       fs.any (fun kv => kv.1 == "data") = false) →
      wrapperRun url cfg (v :: rest) =
        ⟨v :: (wrapperRun url cfg rest).yielded,
         (wrapperRun url cfg rest).dispatches,
         .errorMissingKeys (fs.map (fun kv => kv.1))
           :: (wrapperRun url cfg rest).logs,
         (wrapperRun url cfg rest).errored⟩) := by
  constructor
  · intro hp
    have hpe := processEvent_parse_fail (pyStrOrEmpty url ++ "/chat/steps") hn hp
    rw [wrapperRun_cons_yield rest htr hpe]
    simp
  · intro fs hp hmiss
    have hvk := validateKeys_dict_missing hmiss
    have hpe := processEvent_missing_keys
      (pyStrOrEmpty url ++ "/chat/steps") hn hp hvk
    rw [wrapperRun_cons_yield rest htr hpe]
    simp

/-- Claim C2 (witness): a single unparseable string event under a
configured sink is logged and yielded, with no dispatch and no error. -/
theorem C2_witness :
    wrapperRun (some "http://sink.example") cfgReject [.vstr "x"] =
      ⟨[.vstr "x"], [], [.errorJsonParse (.vstr "x")], none⟩ :=
  (C2_malformed_recovery (some "http://sink.example") cfgReject (.vstr "x")
    "x" [] rfl rfl).1 rfl

/-- Claim C3: with a sink configured at base URL u, an event whose
candidate text (after stripping a leading "data: " marker and whitespace
from string events) parses to a JSON object containing both "step" and
"data", and for which a truthy task identifier t is resolved, schedules
exactly one mirror dispatch, addressed to u ++ "/chat/steps", with body
consisting of exactly the task id t, the parsed step field, the parsed
data field, and the clock reading in fractional seconds since the epoch;
the event itself is still yielded. -/
theorem C3_single_dispatch (u : String) (cfg : Cfg) (v : PyVal) (s2 : String)
    (fs : List (String × PyVal)) (st dt : PyVal) (t : String)
    (rlogs : List LogEntry) (rest : List PyVal)
    (hu : u ≠ "") (hn : normalize v = .vstr s2)
    (hp : cfg.parse s2 = some (.vdict fs))
    (hst : dictGet fs "step" = some st) (hdt : dictGet fs "data" = some dt)
    (hres : resolveTaskId cfg = .ok (some t, rlogs)) (ht : t ≠ "") :
    wrapperRun (some u) cfg (v :: rest) =
      ⟨v :: (wrapperRun (some u) cfg rest).yielded,
       (u ++ "/chat/steps", ⟨t, st, dt, (cfg.timeNs : ℚ) / 1000000000⟩)
         :: (wrapperRun (some u) cfg rest).dispatches,
       rlogs ++ (wrapperRun (some u) cfg rest).logs,
       (wrapperRun (some u) cfg rest).errored⟩ :=
  run_cons_mirror rest hu hn hp hst hdt hres ht

/-- Claim C3 (witness): the spec example.  The event text is
"data: " followed by the JSON record with step "plan" and data x = 1, the
correlation yields task id "T1", and exactly one dispatch is scheduled
with exactly that body. -/
theorem C3_witness :
    wrapperRun (some "http://sink.example") cfgPlan [evPlan] =
      ⟨[evPlan],
       [("http://sink.example/chat/steps",
         ⟨"T1", .vstr "plan", .vdict [("x", .vint 1)],
          ((1700000000000000000 : Nat) : ℚ) / 1000000000⟩)],
       [], none⟩ :=
  C3_single_dispatch "http://sink.example" cfgPlan evPlan jsonPlan
    [("step", .vstr "plan"), ("data", .vdict [("x", .vint 1)])]
    (.vstr "plan") (.vdict [("x", .vint 1)]) "T1" [] []
    (by decide) rfl rfl rfl rfl rfl (by decide)

/-- Claim C4: for a mirrorable event with a correlation source exposing
task_id tid and project_id pid: when a task-lock record exists and its
current-task-id field is present and non-empty, the dispatched task_id is
the lock value; when the lock exists but that field is absent or empty,
the dispatched task_id is tid; and when no lock exists, a warning naming
pid is logged and the dispatched task_id is tid. -/
theorem C4_task_id_resolution (u : String) (cfg : Cfg) (v : PyVal)
    (s2 : String) (fs : List (String × PyVal)) (st dt : PyVal)
    (tid pid : String) (rest : List PyVal)
    (hu : u ≠ "") (hn : normalize v = .vstr s2)
    (hp : cfg.parse s2 = some (.vdict fs))
    (hst : dictGet fs "step" = some st) (hdt : dictGet fs "data" = some dt)
    (hc : cfg.chatArg = some ⟨some tid, some pid⟩) :
    (∀ lock cur, cfg.getTaskLock pid = some lock →
      lock.current_task_id = some cur → cur ≠ "" →
      wrapperRun (some u) cfg (v :: rest) =
        ⟨v :: (wrapperRun (some u) cfg rest).yielded,
         (u ++ "/chat/steps", ⟨cur, st, dt, (cfg.timeNs : ℚ) / 1000000000⟩)
           :: (wrapperRun (some u) cfg rest).dispatches,
         (wrapperRun (some u) cfg rest).logs,
         (wrapperRun (some u) cfg rest).errored⟩) ∧
    (∀ lock, cfg.getTaskLock pid = some lock →
      (lock.current_task_id = none ∨ lock.current_task_id = some "") →
      tid ≠ "" →
      wrapperRun (some u) cfg (v :: rest) =
        ⟨v :: (wrapperRun (some u) cfg rest).yielded,
         (u ++ "/chat/steps", ⟨tid, st, dt, (cfg.timeNs : ℚ) / 1000000000⟩)
           :: (wrapperRun (some u) cfg rest).dispatches,
         (wrapperRun (some u) cfg rest).logs,
         (wrapperRun (some u) cfg rest).errored⟩) ∧
    (cfg.getTaskLock pid = none → tid ≠ "" →
      wrapperRun (some u) cfg (v :: rest) =
        ⟨v :: (wrapperRun (some u) cfg rest).yielded,
         (u ++ "/chat/steps", ⟨tid, st, dt, (cfg.timeNs : ℚ) / 1000000000⟩)
           :: (wrapperRun (some u) cfg rest).dispatches,
         .warnTaskLockNotFound pid :: (wrapperRun (some u) cfg rest).logs,
         (wrapperRun (some u) cfg rest).errored⟩) := by
  refine ⟨?_, ?_, ?_⟩
  · intro lock cur hl hcur hne
    exact run_cons_mirror rest hu hn hp hst hdt
      (resolveTaskId_lock_current hc hl hcur hne) hne
  · intro lock hl hcur hne
    exact run_cons_mirror rest hu hn hp hst hdt
      (resolveTaskId_lock_fallback hc hl hcur) hne
  · intro hl hne
    exact run_cons_mirror rest hu hn hp hst hdt
      (resolveTaskId_no_lock hc hl) hne

/-- Claim C4 (witness): the no-lock case at a concrete input: the
dispatched task_id falls back to the correlation source task id "T1" and
a warning naming project "P1" is logged. -/
theorem C4_witness :
    wrapperRun (some "http://sink.example") cfgNoLock [evPlan] =
      ⟨[evPlan],
       [("http://sink.example/chat/steps",
         ⟨"T1", .vstr "plan", .vdict [("x", .vint 1)],
          ((0 : Nat) : ℚ) / 1000000000⟩)],
       [.warnTaskLockNotFound "P1"], none⟩ :=
  (C4_task_id_resolution "http://sink.example" cfgNoLock evPlan jsonPlan
    [("step", .vstr "plan"), ("data", .vdict [("x", .vint 1)])]
    (.vstr "plan") (.vdict [("x", .vint 1)]) "T1" "P1" []
    (by decide) rfl rfl rfl rfl rfl).2.2 rfl (by decide)

end StepMirror

namespace StepMirror

/-- Claim C5: send_to_api never propagates an exception to its caller:
for every transport, URL and payload it returns normally — the empty log
on success, and on a transport error the single log entry carrying the
error type name and message; moreover a failed dispatch never affects the
stream, since a wrapper run does not depend on the transport at all (the
dispatch is scheduled fire-and-forget and never awaited). -/
theorem C5_send_never_raises :
    (∀ (post : String → Payload → Except TransportError Unit)
        (url : String) (data : Payload),
      (∀ u, post url data = .ok u → send_to_api post url data = []) ∧
      (∀ e, post url data = .error e →
        send_to_api post url data = [.errorSendFailed url e.name e.msg])) ∧
    (∀ (url : Option String) (parse : String → Option PyVal)
        (gtl : String → Option TaskLock) (arg : Option ChatLike) (tns : Nat)
        (p1 p2 : String → Payload → Except TransportError Unit)
        (events : List PyVal),
      wrapperRun url ⟨parse, gtl, arg, tns, p1⟩ events =
        wrapperRun url ⟨parse, gtl, arg, tns, p2⟩ events) := by
  constructor
  · intro post url data
    constructor
    · intro u h
      simp [send_to_api, h]
    · intro e h
      simp [send_to_api, h]
  · intro url parse gtl arg tns p1 p2 events
    induction events with
    | nil => rfl
    | cons v rest ih =>
      have hpe : processEvent ⟨parse, gtl, arg, tns, p1⟩
          (pyStrOrEmpty url ++ "/chat/steps") v =
          processEvent ⟨parse, gtl, arg, tns, p2⟩
          (pyStrOrEmpty url ++ "/chat/steps") v := rfl
      cases htr : pyTruthyOptStr url with
      | false =>
        rw [wrapperRun_cons_passthrough url ⟨parse, gtl, arg, tns, p1⟩ v rest htr,
            wrapperRun_cons_passthrough url ⟨parse, gtl, arg, tns, p2⟩ v rest htr,
            ih]
      | true =>
        cases hp2 : processEvent ⟨parse, gtl, arg, tns, p2⟩
            (pyStrOrEmpty url ++ "/chat/steps") v with
        | yielded ds ls =>
          rw [wrapperRun_cons_yield rest htr (hpe.trans hp2),
              wrapperRun_cons_yield rest htr hp2, ih]
        | raised ls e =>
          rw [wrapperRun_cons_raised rest htr (hpe.trans hp2),
              wrapperRun_cons_raised rest htr hp2]

/-- Claim C5 (witness): a refused connection during dispatch produces
exactly one log entry with the error type name and message, and no
exception. -/
theorem C5_witness :
    send_to_api postFail "http://sink.example/chat/steps" payload0 =
      [.errorSendFailed "http://sink.example/chat/steps"
        "ConnectError" "connection refused"] :=
  ((C5_send_never_raises.1 postFail "http://sink.example/chat/steps"
      payload0).2 ⟨"ConnectError", "connection refused"⟩ rfl)

/-- Claim C7 (counterexample): a first positional argument exposing
task_id but not project_id passes the hasattr check of line 55 (which
probes only task_id), so the correlation lookup of line 59 reads the
missing project_id attribute and raises an AttributeError: the event is
neither yielded nor skipped quietly, contrary to the claim that an
argument exposing only one of the two attributes leads to no resolution,
no dispatch, and an unchanged yield without attribute errors. -/
theorem C7_counterexample :
    ¬ ((wrapperRun (some "http://sink.example") cfgNoProj
          [.vstr "J"]).dispatches = [] ∧
       (wrapperRun (some "http://sink.example") cfgNoProj
          [.vstr "J"]).yielded = [.vstr "J"] ∧
       (wrapperRun (some "http://sink.example") cfgNoProj
          [.vstr "J"]).errored = none) := by
  intro h
  have h2 : (wrapperRun (some "http://sink.example") cfgNoProj
      [.vstr "J"]).errored
      = some (.attributeError "Chat object has no attribute project_id") := rfl
  rw [h2] at h
  exact Option.noConfusion h.2.2

/-- Claim C7 (amended): the first positional argument is treated as the
correlation source exactly when it exposes a task_id attribute; the
project_id attribute is not part of the capability check.  For a
mirrorable event: when the argument lacks task_id (even if it exposes
project_id), no task identifier is resolved, no dispatch occurs, and the
event is yielded without error; when the argument exposes task_id but
lacks project_id, the correlation lookup reads the missing project_id
attribute and an uncaught AttributeError aborts the stream. -/
theorem C7_duck_typing (u : String) (cfg : Cfg) (v : PyVal) (s2 : String)
    (fs : List (String × PyVal)) (st dt : PyVal) (rest : List PyVal)
    (hu : u ≠ "") (hn : normalize v = .vstr s2)
    (hp : cfg.parse s2 = some (.vdict fs))
    (hst : dictGet fs "step" = some st) (hdt : dictGet fs "data" = some dt) :
    (∀ po : Option String, cfg.chatArg = some ⟨none, po⟩ →
      wrapperRun (some u) cfg (v :: rest) =
        ⟨v :: (wrapperRun (some u) cfg rest).yielded,
         (wrapperRun (some u) cfg rest).dispatches,
         (wrapperRun (some u) cfg rest).logs,
         (wrapperRun (some u) cfg rest).errored⟩) ∧
    (∀ ti : String, cfg.chatArg = some ⟨some ti, none⟩ →
      wrapperRun (some u) cfg (v :: rest) =
        ⟨[], [], [],
         some (.attributeError "Chat object has no attribute project_id")⟩) := by
  constructor
  · intro po hc
    have hres : resolveTaskId cfg = .ok (none, []) := by
      simp [resolveTaskId, hc]
    exact run_cons_nodispatch rest hu hn hp hst hdt hres (Or.inl rfl)
  · intro ti hc
    have hres : resolveTaskId cfg =
        .error (.attributeError "Chat object has no attribute project_id") := by
      simp [resolveTaskId, hc]
    exact run_cons_resolve_raised rest hu hn hp hst hdt hres

/-- Claim C7 (witness): a first positional argument exposing only
project_id is not treated as a correlation source: the mirrorable event
is yielded with no dispatch, no log and no error. -/
theorem C7_witness :
    wrapperRun (some "http://sink.example") cfgProjOnly [.vstr "J"] =
      ⟨[.vstr "J"], [], [], none⟩ :=
  (C7_duck_typing "http://sink.example" cfgProjOnly (.vstr "J") "J"
    [("step", .vint 1), ("data", .vint 2)] (.vint 1) (.vint 2) []
    (by decide) rfl rfl rfl rfl).1 (some "P1") rfl

/-- Claim C10: for a successfully parsed and validated event under a
configured sink, mirror dispatch is governed by Python truthiness of the
resolved task identifier: when resolution yields no identifier (no
correlation source) or the empty string (a falsy fallback), no dispatch
is issued and the event is still yielded; when it yields a non-empty
identifier, exactly one dispatch carrying that identifier is issued. -/
theorem C10_truthy_dispatch (u : String) (cfg : Cfg) (v : PyVal)
    (s2 : String) (fs : List (String × PyVal)) (st dt : PyVal)
    (rest : List PyVal) (r : Option String) (rlogs : List LogEntry)
    (hu : u ≠ "") (hn : normalize v = .vstr s2)
    (hp : cfg.parse s2 = some (.vdict fs))
    (hst : dictGet fs "step" = some st) (hdt : dictGet fs "data" = some dt)
    (hres : resolveTaskId cfg = .ok (r, rlogs)) :
    ((r = none ∨ r = some "") →
      wrapperRun (some u) cfg (v :: rest) =
        ⟨v :: (wrapperRun (some u) cfg rest).yielded,
         (wrapperRun (some u) cfg rest).dispatches,
         rlogs ++ (wrapperRun (some u) cfg rest).logs,
         (wrapperRun (some u) cfg rest).errored⟩) ∧
    (∀ t, r = some t → t ≠ "" →
      wrapperRun (some u) cfg (v :: rest) =
        ⟨v :: (wrapperRun (some u) cfg rest).yielded,
         (u ++ "/chat/steps", ⟨t, st, dt, (cfg.timeNs : ℚ) / 1000000000⟩)
           :: (wrapperRun (some u) cfg rest).dispatches,
         rlogs ++ (wrapperRun (some u) cfg rest).logs,
         (wrapperRun (some u) cfg rest).errored⟩) := by
  constructor
  · intro hfals
    exact run_cons_nodispatch rest hu hn hp hst hdt hres hfals
  · intro t ht hne
    rw [ht] at hres
    exact run_cons_mirror rest hu hn hp hst hdt hres hne

/-- Claim C10 (witness): with no correlation source the resolved task
identifier is absent (falsy), so a well-formed event is yielded with no
dispatch. -/
theorem C10_witness :
    wrapperRun (some "http://sink.example") cfgMiniNoChat [.vstr "J"] =
      ⟨[.vstr "J"], [], [], none⟩ :=
  (C10_truthy_dispatch "http://sink.example" cfgMiniNoChat (.vstr "J") "J"
    [("step", .vint 1), ("data", .vint 2)] (.vint 1) (.vint 2) [] none []
    (by decide) rfl rfl rfl rfl rfl).1 (Or.inl rfl)

end StepMirror
